import Mathlib

/-!
# Verification of the image-relay service (`src/main.py`)

A shallow embedding of the single-file FastAPI service: it accepts a post
title/content, asks the Gemini API for an image, uploads the bytes to a GCS
bucket and forwards the public URL (with the request's Authorization header
value) to a Spring backend.

External effects (the Gemini SDK call, the GCS write, the httpx POST, the
uuid generator) are modelled as oracle inputs: each request-level function
takes the outcome of its external calls as an explicit argument, and the
handler returns a trace recording the calls it made together with the HTTP
response it produced.  Bytes are `List Nat`, absent values are `Option`,
and Python truthiness tests (`if not image_bytes`, `if not jwt_token`) are
modelled by explicit truthiness functions on `Option`.
-/

namespace ImageRelay

/-- Python truthiness of an optional byte string: `None` and `b""` are
falsy, every non-empty byte string is truthy (`if not image_bytes`). -/
def pyTruthyBytes : Option (List Nat) → Bool
  | none => false
  | some b => !b.isEmpty

/-- Python truthiness of an optional string: `None` and `""` are falsy
(`if not API_KEY`, `if not jwt_token`). -/
def pyTruthyStr : Option String → Bool
  | none => false
  | some s => !s.isEmpty

/-! ## Startup / credential loading (`main.py` lines 11-26)

Module-level code runs top to bottom: the `GEMINI_API_KEY` check (line 13)
and the `SPRING_BACKEND_URL` check (line 23) both raise `ValueError` before
`app = FastAPI()` (line 26) is reached, so a failed check means the HTTP
application object is never constructed. -/

/-- The process environment, restricted to the two variables `main.py`
reads via `os.getenv`. -/
structure Env where
  gemini_api_key : Option String
  spring_backend_url : Option String

/-- Configuration held by a successfully started process; constructing it
is the model of reaching `app = FastAPI()` on line 26. -/
structure AppConfig where
  apiKey : String
  springBackendUrl : String

/-- Modules-level initialization of `main.py` (lines 11-26): read
`GEMINI_API_KEY`, raise a descriptive `ValueError` if it is falsy, read
`SPRING_BACKEND_URL`, raise if falsy, then construct the app.  `Except`
models the uncaught `ValueError` aborting the process. -/
def moduleInit (env : Env) : Except String AppConfig :=
  if pyTruthyStr env.gemini_api_key then
    if pyTruthyStr env.spring_backend_url then
      .ok { apiKey := env.gemini_api_key.getD ""
            springBackendUrl := env.spring_backend_url.getD "" }
    else
      .error "SPRING_BACKEND_URL 환경 변수가 설정되지 않았습니다. Spring 백엔드의 URL을 지정해주세요."
  else
    .error "GEMINI_API_KEY 환경 변수가 설정되지 않았습니다. Cloud Run 환경 변수에 추가해주세요."

/-! ## Gemini image generation (`generate_gemini_image`, lines 43-82) -/

/-- The fixed bucket name (`BUCKET_NAME`, line 18). -/
def BUCKET_NAME : String := "map-of-memory-bucket"

/-- The fixed key directory (`IMAGE_DIR`, line 19). -/
def IMAGE_DIR : String := "ai-images"

/-- The fixed no-text instruction closing every prompt (line 51). -/
def noTextInstruction : String :=
  "Do not include any text, captions, letters, or visible writing in the image. Only generate the illustration itself, with no words."

/-- The prompt template of lines 49-51: a fixed template interpolating the
title and content. -/
def geminiPrompt (title content : String) : String :=
  "Create an artistic 3d rendered image based on the following post.\n" ++
  "Title: " ++ title ++ "\nContent: " ++ content ++ "\n" ++
  noTextInstruction

/-- The arguments of the `client.models.generate_content` call
(lines 56-62). -/
structure GeminiCall where
  model : String
  contents : String
  response_modalities : List String

/-- The `generate_content` call built by `generate_gemini_image` for a
given title and content. -/
def geminiCallOf (title content : String) : GeminiCall :=
  { model := "gemini-2.0-flash-preview-image-generation"
    contents := geminiPrompt title content
    response_modalities := ["IMAGE", "TEXT"] }

/-- An inline-data blob of a response part; per the SDK its `data` field is
itself optional bytes. -/
structure InlineData where
  data : Option (List Nat)

/-- A content part of a Gemini candidate (`part.inline_data`). -/
structure Part where
  inline_data : Option InlineData

/-- The `content` of a candidate, holding its parts. -/
structure Content where
  parts : List Part

/-- One response candidate. -/
structure Candidate where
  content : Content

/-- A well-formed Gemini response: a sequence of candidates. -/
structure GeminiResponse where
  candidates : List Candidate

/-- Outcome of the external `generate_content` call: the call itself raises
(line 63), iterating the response shape raises (line 78), or a well-formed
response is returned. -/
inductive GeminiOutcome where
  | apiError (msg : String)
  | parseError (msg : String)
  | ok (resp : GeminiResponse)

/-- Log events emitted by the service via `print`.  (The per-part debug
dump of line 72 and the full-response dump payloads are elided; only the
events the spec talks about are recorded.) -/
inductive LogEvent where
  | apiException (msg : String)
  | responseDump
  | parseException (msg : String)
  | noAuthWarning
deriving DecidableEq

/-- The inner loop of lines 71-75: take the first part whose `inline_data`
is not `None` and return its `data` field (which may itself be `None`);
`none` when no part carries inline data. -/
def firstInlineOfParts : List Part → Option (Option (List Nat))
  | [] => none
  | p :: rest =>
    match p.inline_data with
    | some d => some d.data
    | none => firstInlineOfParts rest

/-- The outer loop of lines 70-77 with its accumulator `image_bytes`:
for each candidate, if some part carries inline data overwrite the
accumulator with that part's data (the inner `break `), then stop as soon
as the accumulator is truthy (`if image_bytes: break `). -/
def scanCandidates : List Candidate → Option (List Nat) → Option (List Nat)
  | [], acc => acc
  | c :: rest, acc =>
    let acc2 :=
      match firstInlineOfParts c.content.parts with
      | some d => d
      | none => acc
    if pyTruthyBytes acc2 then acc2 else scanCandidates rest acc2

/-- `generate_gemini_image(title, content)` (lines 43-82): builds the
prompt, performs the external call (here: consults the oracle with the
call it builds), and on success scans the candidates for inline image
bytes.  Returns the optional bytes together with the log events emitted. -/
def generate_gemini_image (title content : String)
    (oracle : GeminiCall → GeminiOutcome) : Option (List Nat) × List LogEvent :=
  match oracle (geminiCallOf title content) with
  | .apiError e => (none, [.apiException e])
  | .parseError e => (none, [.responseDump, .parseException e])
  | .ok resp => (scanCandidates resp.candidates none, [.responseDump])

/-! ## GCS upload (`upload_image_to_gcs`, lines 32-41)

The storage service is modelled as an association list from
(bucket, object name) to stored objects; `upload_from_string` either fails
(the exception propagates: `Except.error`) or prepends the new entry
(lookup-first semantics model overwriting).  The Python code never touches
the object's ACL — `blob.public_url` merely formats a URL — so a freshly
written object records `publicAccess := false`. -/

/-- An object held by the storage service. -/
structure GcsObject where
  data : List Nat
  contentType : String
  publicAccess : Bool
deriving DecidableEq

/-- The storage service state: newest entry first, keyed by
(bucket, object name). -/
abbrev GcsState : Type := List ((String × String) × GcsObject)

/-- Outcome of the external `upload_from_string` call. -/
inductive GcsOutcome where
  | ok
  | err (msg : String)

/-- `blob.public_url`: the canonical public URL of a GCS object.  It is
only a formatted string; it does not grant read access. -/
def gcsPublicUrl (bucket name : String) : String :=
  "https://storage.googleapis.com/" ++ bucket ++ "/" ++ name

/-- `upload_image_to_gcs(image_bytes, filename)` (lines 32-41): one
`upload_from_string` of the full buffer to `BUCKET_NAME` at
`IMAGE_DIR/filename` with content type `image/png`, returning
`blob.public_url`; a storage failure propagates (`Except.error`) with the
state unchanged. -/
def upload_image_to_gcs (image_bytes : List Nat) (filename : String)
    (st : GcsState) (outcome : GcsOutcome) : Except String (String × GcsState) :=
  match outcome with
  | .err m => .error m
  | .ok =>
    let name := IMAGE_DIR ++ "/" ++ filename
    .ok (gcsPublicUrl BUCKET_NAME name,
      ((BUCKET_NAME, name),
        { data := image_bytes, contentType := "image/png", publicAccess := false }) :: st)

/-! ## Spring backend forwarding (`send_to_spring_backend`, lines 84-111)

The httpx POST is an oracle: either no response was received
(`httpx.RequestError`), or a response with a status code, raw text and an
optional parsed-JSON body arrived, or some other local exception was
raised.  `response.raise_for_status()` raises `httpx.HTTPStatusError` for
every non-2xx status; a JSON-decoding failure of a 2xx body raises a plain
exception caught by the final `except Exception` arm. -/

/-- The outgoing POST request built on lines 88-99: the Authorization
header carries the caller's token verbatim (possibly absent) and the JSON
payload is `{"imageUrl": image_url}`. -/
structure SpringRequest where
  url : String
  authorization : Option String
  imageUrl : String
deriving DecidableEq

/-- Outcome of the external httpx POST.  `body` is the result of parsing
the response text as JSON: `.error` when `response.json()` would raise. -/
inductive SpringOutcome where
  | requestError (msg : String)
  | response (status : Nat) (text : String) (body : Except String String)
  | otherError (msg : String)

/-- 2xx test used by `httpx.Response.raise_for_status`. -/
def is2xx (s : Nat) : Bool := 200 ≤ s && s < 300

/-- Result of `send_to_spring_backend`: the parsed JSON body on success,
or the `fastapi.HTTPException(status_code, detail)` it raises. -/
inductive SpringResult where
  | ok (body : String)
  | httpError (status : Nat) (detail : String)
deriving DecidableEq

/-- The `try`/`except` ladder of lines 97-111: map the outcome of the POST
to either the parsed JSON body or the `HTTPException` raised — connection
failure to 500, a non-2xx status `s` to `s` with the response text in the
detail, any other local error (including a JSON-decode failure of a 2xx
body) to 500. -/
def springResultOf (outcome : SpringOutcome) : SpringResult :=
  match outcome with
  | .requestError m =>
    .httpError 500 ("Failed to connect to Spring backend: " ++ m)
  | .otherError m =>
    .httpError 500 ("An unexpected error occurred: " ++ m)
  | .response status text body =>
    if is2xx status then
      match body with
      | .ok j => .ok j
      | .error m => .httpError 500 ("An unexpected error occurred: " ++ m)
    else
      .httpError status ("Spring backend returned an error: " ++ text)

/-- `send_to_spring_backend(image_url, jwt_token)` (lines 84-111): build
the POST request for the configured URL (the Authorization header and the
`imageUrl` payload pass the arguments through verbatim, lines 88-94), then
translate the outcome of awaiting it.  Returns the request built together
with the result. -/
def send_to_spring_backend (springUrl : String) (image_url : String)
    (jwt_token : Option String) (outcome : SpringOutcome) :
    SpringRequest × SpringResult :=
  ({ url := springUrl, authorization := jwt_token, imageUrl := image_url },
   springResultOf outcome)

/-! ## The endpoint (`generate_image_post`, lines 114-143) -/

/-- The body of the `PostRequest` model (lines 28-30). -/
structure PostRequest where
  title : String
  content : String

/-- One call to `upload_image_to_gcs`, as recorded in the trace. -/
structure UploadCall where
  bytes : List Nat
  filename : String
deriving DecidableEq

/-- A JSON response body produced by the handler. -/
inductive RespBody where
  | success (image_url : String) (spring_backend_response : String)
  | error (msg : String)
deriving DecidableEq

/-- What the handler hands back to the framework: a `JSONResponse` with a
status code, or an exception it did not catch (the storage failure), which
FastAPI turns into a generic 500. -/
inductive EndpointResult where
  | json (status : Nat) (body : RespBody)
  | unhandled (msg : String)
deriving DecidableEq

/-- The outcomes of the external calls a single request may perform, plus
the uuid the request generates. -/
structure RequestOracles where
  gemini : GeminiCall → GeminiOutcome
  uuid : String
  gcs : GcsOutcome
  spring : SpringOutcome

/-- Everything observable about one handled request. -/
structure Trace where
  logs : List LogEvent
  uploadCalls : List UploadCall
  springRequests : List SpringRequest
  gcsFinal : GcsState
  response : EndpointResult

/-- `generate_image_post` (lines 114-143): read the Authorization header
(warn when falsy), generate the image (500 and stop when the result is
falsy), upload under a fresh `<uuid>.png` (a failure propagates uncaught),
forward to the Spring backend and translate its `HTTPException` into a
`JSONResponse` with the carried status and detail. -/
def generate_image_post (cfg : AppConfig) (req : PostRequest)
    (auth : Option String) (o : RequestOracles) (gcs0 : GcsState) : Trace :=
  let warnLogs : List LogEvent := if pyTruthyStr auth then [] else [.noAuthWarning]
  let gen := generate_gemini_image req.title req.content o.gemini
  if pyTruthyBytes gen.fst then
    let image_bytes := gen.fst.getD []
    let filename := o.uuid ++ ".png"
    match upload_image_to_gcs image_bytes filename gcs0 o.gcs with
    | .error m =>
      { logs := warnLogs ++ gen.snd
        uploadCalls := [{ bytes := image_bytes, filename := filename }]
        springRequests := []
        gcsFinal := gcs0
        response := .unhandled m }
    | .ok (public_url, gcs1) =>
      let sent := send_to_spring_backend cfg.springBackendUrl public_url auth o.spring
      match sent.snd with
      | .ok body =>
        { logs := warnLogs ++ gen.snd
          uploadCalls := [{ bytes := image_bytes, filename := filename }]
          springRequests := [sent.fst]
          gcsFinal := gcs1
          response := .json 200 (.success public_url body) }
      | .httpError s d =>
        { logs := warnLogs ++ gen.snd
          uploadCalls := [{ bytes := image_bytes, filename := filename }]
          springRequests := [sent.fst]
          gcsFinal := gcs1
          response := .json s (.error d) }
  else
    { logs := warnLogs ++ gen.snd
      uploadCalls := []
      springRequests := []
      gcsFinal := gcs0
      response := .json 500 (.error "Failed to generate image from Gemini. Check Gemini API logs for details.") }

/-! ## Helper lemmas -/

/-- A string interpolated in the middle of a concatenation occurs in the
result as a contiguous substring. -/
theorem data_infix_middle (a m b : String) : m.data <:+: (a ++ m ++ b).data :=
  ⟨a.data, b.data, by simp [String.data_append]⟩

/-- A concrete Gemini response whose only candidate carries a single
inline-data part with empty bytes. -/
def emptyInlineResp : GeminiResponse :=
  { candidates := [{ content := { parts := [{ inline_data := some { data := some [] } }] } }] }

/-- If no part of a list carries inline data, the inner scan finds
nothing. -/
theorem firstInlineOfParts_eq_none (ps : List Part)
    (h : ∀ p ∈ ps, p.inline_data = none) : firstInlineOfParts ps = none := by
  induction ps with
  | nil => rfl
  | cons p rest ih =>
    have hp := h p (by simp)
    simp only [firstInlineOfParts, hp]
    exact ih fun q hq => h q (by simp [hq])

/-- If no part of any candidate carries inline data, the candidate scan
returns its initial accumulator `None`. -/
theorem scanCandidates_none_of_no_inline (cs : List Candidate)
    (h : ∀ c ∈ cs, ∀ p ∈ c.content.parts, p.inline_data = none) :
    scanCandidates cs none = none := by
  induction cs with
  | nil => rfl
  | cons c rest ih =>
    have hc : firstInlineOfParts c.content.parts = none :=
      firstInlineOfParts_eq_none _ (h c (by simp))
    simp only [scanCandidates, hc, pyTruthyBytes, Bool.false_eq_true, if_false]
    exact ih fun d hd => h d (by simp [hd])

/-- A concrete Gemini response with one candidate carrying one non-empty
inline-data part. -/
def goodResp : GeminiResponse :=
  { candidates := [{ content := { parts := [{ inline_data := some { data := some [137, 80] } }] } }] }

/-! ## Claim theorems -/

/-- C3: the image-generation operation is total — an exception of the
external call or of response parsing is absorbed into a `None` result and
a corresponding log entry, and a response none of whose parts carries
inline data also yields `None`. -/
theorem C3_generation_failures_become_null (title content : String)
    (oracle : GeminiCall → GeminiOutcome) :
    (∀ e, oracle (geminiCallOf title content) = .apiError e →
      (generate_gemini_image title content oracle).fst = none ∧
      LogEvent.apiException e ∈ (generate_gemini_image title content oracle).snd) ∧
    (∀ e, oracle (geminiCallOf title content) = .parseError e →
      (generate_gemini_image title content oracle).fst = none ∧
      LogEvent.parseException e ∈ (generate_gemini_image title content oracle).snd) ∧
    (∀ resp, oracle (geminiCallOf title content) = .ok resp →
      (∀ c ∈ resp.candidates, ∀ p ∈ c.content.parts, p.inline_data = none) →
      (generate_gemini_image title content oracle).fst = none) := by
  refine ⟨?_, ?_, ?_⟩
  · intro e he
    simp [generate_gemini_image, he]
  · intro e he
    simp [generate_gemini_image, he]
  · intro resp hr hnone
    simp only [generate_gemini_image, hr]
    exact scanCandidates_none_of_no_inline _ hnone

/-- Witness for C3: a raising Gemini call produces a null result and an
exception log entry. -/
theorem C3_generation_failures_become_null_witness :
    (generate_gemini_image "t" "c" fun _ => .apiError "boom").fst = none ∧
    LogEvent.apiException "boom" ∈ (generate_gemini_image "t" "c" fun _ => .apiError "boom").snd :=
  (C3_generation_failures_become_null "t" "c" fun _ => .apiError "boom").1 "boom" rfl

/-- C2: the forward operation maps its three failure classes to distinct
`HTTPException`s — connection failure to 500, a non-2xx downstream status
`s` to exactly `s` with the downstream response text contained in the
error detail, any other local error to 500 — and the endpoint answers a
forwarded non-2xx status `s` with a JSON error response of status `s`. -/
theorem C2_three_failure_classes (springUrl image_url : String) (jwt : Option String)
    (cfg : AppConfig) (req : PostRequest) (auth : Option String)
    (o : RequestOracles) (gcs0 : GcsState) :
    (∀ m, (send_to_spring_backend springUrl image_url jwt (.requestError m)).snd =
      .httpError 500 ("Failed to connect to Spring backend: " ++ m)) ∧
    (∀ s t b, is2xx s = false →
      (send_to_spring_backend springUrl image_url jwt (.response s t b)).snd =
        .httpError s ("Spring backend returned an error: " ++ t) ∧
      t.data <:+: ("Spring backend returned an error: " ++ t).data) ∧
    (∀ m, (send_to_spring_backend springUrl image_url jwt (.otherError m)).snd =
      .httpError 500 ("An unexpected error occurred: " ++ m)) ∧
    (∀ s t b, pyTruthyBytes (generate_gemini_image req.title req.content o.gemini).fst = true →
      o.gcs = .ok → o.spring = .response s t b → is2xx s = false →
      (generate_image_post cfg req auth o gcs0).response =
        .json s (.error ("Spring backend returned an error: " ++ t))) := by
  refine ⟨fun m => rfl, ?_, fun m => rfl, ?_⟩
  · intro s t b h2
    refine ⟨?_, ?_⟩
    · simp [send_to_spring_backend, springResultOf, h2]
    · exact ⟨("Spring backend returned an error: ").data, [], by simp [String.data_append]⟩
  · intro s t b hgen hgcs hspring h2
    unfold generate_image_post
    simp [hgen, hgcs, hspring, upload_image_to_gcs, send_to_spring_backend, springResultOf, h2]

/-- Witness for C2: a downstream 503 is carried through to the endpoint's
response status, with the downstream text in the error body. -/
theorem C2_three_failure_classes_witness :
    (generate_image_post ⟨"key", "http://spring"⟩ ⟨"t", "c"⟩ (some "Bearer x")
        ⟨fun _ => .ok goodResp, "u1", .ok, .response 503 "Service Unavailable" (.error "nj")⟩
        []).response =
      .json 503 (.error ("Spring backend returned an error: " ++ "Service Unavailable")) :=
  (C2_three_failure_classes "http://spring" "img" none ⟨"key", "http://spring"⟩ ⟨"t", "c"⟩
      (some "Bearer x")
      ⟨fun _ => .ok goodResp, "u1", .ok, .response 503 "Service Unavailable" (.error "nj")⟩
      []).2.2.2 503 "Service Unavailable" (.error "nj") rfl rfl rfl (by decide)

/-- C1: if the image generation step returns null, `POST /generate-image`
responds 500 with the generation-failure error payload, the uploader is
never called, and the storage state is untouched. -/
theorem C1_generation_null_yields_500_and_no_upload (cfg : AppConfig)
    (req : PostRequest) (auth : Option String) (o : RequestOracles) (gcs0 : GcsState)
    (h : (generate_gemini_image req.title req.content o.gemini).fst = none) :
    (generate_image_post cfg req auth o gcs0).response =
      .json 500 (.error "Failed to generate image from Gemini. Check Gemini API logs for details.") ∧
    (generate_image_post cfg req auth o gcs0).uploadCalls = [] ∧
    (generate_image_post cfg req auth o gcs0).gcsFinal = gcs0 := by
  unfold generate_image_post
  simp [h, pyTruthyBytes]

/-- Witness for C1: a request whose Gemini call raises is answered 500 and
uploads nothing. -/
theorem C1_generation_null_yields_500_and_no_upload_witness :
    (generate_image_post ⟨"key", "http://spring"⟩ ⟨"t", "c"⟩ none
        ⟨fun _ => .apiError "boom", "u1", .ok, .requestError "down"⟩ []).response =
      .json 500 (.error "Failed to generate image from Gemini. Check Gemini API logs for details.") ∧
    (generate_image_post ⟨"key", "http://spring"⟩ ⟨"t", "c"⟩ none
        ⟨fun _ => .apiError "boom", "u1", .ok, .requestError "down"⟩ []).uploadCalls = [] ∧
    (generate_image_post ⟨"key", "http://spring"⟩ ⟨"t", "c"⟩ none
        ⟨fun _ => .apiError "boom", "u1", .ok, .requestError "down"⟩ []).gcsFinal = [] :=
  C1_generation_null_yields_500_and_no_upload ⟨"key", "http://spring"⟩ ⟨"t", "c"⟩ none
    ⟨fun _ => .apiError "boom", "u1", .ok, .requestError "down"⟩ [] rfl

/-- C10: an empty byte string returned by the generation step is treated
identically to null — the truthiness test `if not image_bytes` fails, the
endpoint responds 500 with the generation-failure error, and the uploader
is never called. -/
theorem C10_empty_bytes_treated_as_null (cfg : AppConfig)
    (req : PostRequest) (auth : Option String) (o : RequestOracles) (gcs0 : GcsState)
    (h : (generate_gemini_image req.title req.content o.gemini).fst = some []) :
    (generate_image_post cfg req auth o gcs0).response =
      .json 500 (.error "Failed to generate image from Gemini. Check Gemini API logs for details.") ∧
    (generate_image_post cfg req auth o gcs0).uploadCalls = [] ∧
    (generate_image_post cfg req auth o gcs0).gcsFinal = gcs0 := by
  unfold generate_image_post
  simp [h, pyTruthyBytes]

/-- Witness for C10: a response whose only inline-data part carries empty
bytes is answered 500 and uploads nothing. -/
theorem C10_empty_bytes_treated_as_null_witness :
    (generate_image_post ⟨"key", "http://spring"⟩ ⟨"t", "c"⟩ none
        ⟨fun _ => .ok emptyInlineResp, "u1", .ok, .requestError "down"⟩ []).response =
      .json 500 (.error "Failed to generate image from Gemini. Check Gemini API logs for details.") ∧
    (generate_image_post ⟨"key", "http://spring"⟩ ⟨"t", "c"⟩ none
        ⟨fun _ => .ok emptyInlineResp, "u1", .ok, .requestError "down"⟩ []).uploadCalls = [] ∧
    (generate_image_post ⟨"key", "http://spring"⟩ ⟨"t", "c"⟩ none
        ⟨fun _ => .ok emptyInlineResp, "u1", .ok, .requestError "down"⟩ []).gcsFinal = [] :=
  C10_empty_bytes_treated_as_null ⟨"key", "http://spring"⟩ ⟨"t", "c"⟩ none
    ⟨fun _ => .ok emptyInlineResp, "u1", .ok, .requestError "down"⟩ [] rfl

/-- C5: the prompt handed to the generative model is exactly the fixed
template applied to (title, content) — hence a deterministic function of
them alone — and it contains the title verbatim, the content verbatim and
the fixed no-text instruction as contiguous substrings. -/
theorem C5_prompt_contains_fields_and_instruction (title content : String) :
    (geminiCallOf title content).contents = geminiPrompt title content ∧
    title.data <:+: (geminiCallOf title content).contents.data ∧
    content.data <:+: (geminiCallOf title content).contents.data ∧
    noTextInstruction.data <:+: (geminiCallOf title content).contents.data := by
  refine ⟨rfl, ?_, ?_, ?_⟩
  · refine ⟨("Create an artistic 3d rendered image based on the following post.\n" ++
      "Title: ").data, ("\nContent: " ++ content ++ "\n" ++ noTextInstruction).data, ?_⟩
    simp [geminiCallOf, geminiPrompt, String.data_append]
  · refine ⟨("Create an artistic 3d rendered image based on the following post.\n" ++
      "Title: " ++ title ++ "\nContent: ").data, ("\n" ++ noTextInstruction).data, ?_⟩
    simp [geminiCallOf, geminiPrompt, String.data_append]
  · refine ⟨("Create an artistic 3d rendered image based on the following post.\n" ++
      "Title: " ++ title ++ "\nContent: " ++ content ++ "\n").data, ([] : List Char), ?_⟩
    simp [geminiCallOf, geminiPrompt, String.data_append]

/-- C9: module-level startup aborts with the descriptive `ValueError`
message when `GEMINI_API_KEY` is absent, likewise for
`SPRING_BACKEND_URL`; both checks run before `app = FastAPI()`, so an
`AppConfig` (and with it the application object) only ever exists when
both variables were present and non-empty — a missing variable is never a
per-request error path. -/
theorem C9_missing_required_env_aborts_startup (env : Env) :
    (env.gemini_api_key = none →
      moduleInit env =
        .error "GEMINI_API_KEY 환경 변수가 설정되지 않았습니다. Cloud Run 환경 변수에 추가해주세요.") ∧
    (pyTruthyStr env.gemini_api_key = true → env.spring_backend_url = none →
      moduleInit env =
        .error "SPRING_BACKEND_URL 환경 변수가 설정되지 않았습니다. Spring 백엔드의 URL을 지정해주세요.") ∧
    (∀ cfg, moduleInit env = .ok cfg →
      pyTruthyStr env.gemini_api_key = true ∧ pyTruthyStr env.spring_backend_url = true) := by
  refine ⟨?_, ?_, ?_⟩
  · intro h
    simp [moduleInit, h, pyTruthyStr]
  · intro h1 h2
    unfold moduleInit
    rw [h1, h2]
    simp [pyTruthyStr]
  · intro cfg h
    by_cases h1 : pyTruthyStr env.gemini_api_key
    · by_cases h2 : pyTruthyStr env.spring_backend_url
      · exact ⟨h1, h2⟩
      · simp [moduleInit, h1, h2] at h
    · simp [moduleInit, h1] at h

/-- Witness for C9: with `GEMINI_API_KEY` unset, startup aborts with the
descriptive error. -/
theorem C9_missing_required_env_aborts_startup_witness :
    moduleInit { gemini_api_key := none, spring_backend_url := some "http://spring" } =
      .error "GEMINI_API_KEY 환경 변수가 설정되지 않았습니다. Cloud Run 환경 변수에 추가해주세요." :=
  (C9_missing_required_env_aborts_startup ⟨none, some "http://spring"⟩).1 rfl

/-- C7: a request without an Authorization header runs generation, upload
and forwarding exactly as one with a (non-empty) header: the upload calls,
final storage state, HTTP response and number of backend requests are
identical; the only observable differences are the logged warning and the
absent token in the Authorization header of the backend request. -/
theorem C7_missing_auth_only_warns (cfg : AppConfig) (req : PostRequest)
    (o : RequestOracles) (gcs0 : GcsState) (tok : String) (htok : tok ≠ "") :
    (generate_image_post cfg req none o gcs0).uploadCalls =
      (generate_image_post cfg req (some tok) o gcs0).uploadCalls ∧
    (generate_image_post cfg req none o gcs0).gcsFinal =
      (generate_image_post cfg req (some tok) o gcs0).gcsFinal ∧
    (generate_image_post cfg req none o gcs0).response =
      (generate_image_post cfg req (some tok) o gcs0).response ∧
    (generate_image_post cfg req none o gcs0).logs =
      .noAuthWarning :: (generate_gemini_image req.title req.content o.gemini).snd ∧
    (generate_image_post cfg req (some tok) o gcs0).logs =
      (generate_gemini_image req.title req.content o.gemini).snd ∧
    (generate_image_post cfg req (some tok) o gcs0).springRequests =
      (generate_image_post cfg req none o gcs0).springRequests.map
        (fun r => { r with authorization := some tok }) ∧
    ((generate_image_post cfg req none o gcs0).springRequests.all
      fun r => r.authorization.isNone) = true := by
  have hw : pyTruthyStr (some tok) = true := by
    have he : tok.isEmpty = false := by
      cases he : tok.isEmpty
      · rfl
      · exact absurd ((String.isEmpty_iff tok).mp he) htok
    simp [pyTruthyStr, he]
  have hnone : pyTruthyStr none = false := rfl
  cases hg : pyTruthyBytes (generate_gemini_image req.title req.content o.gemini).fst with
  | false =>
    simp [generate_image_post, hg, hw, hnone]
  | true =>
    cases hgcs : o.gcs with
    | err m =>
      simp [generate_image_post, hg, hw, hnone, hgcs, upload_image_to_gcs]
    | ok =>
      cases hs : springResultOf o.spring with
      | ok body =>
        simp [generate_image_post, hg, hw, hnone, hgcs, hs, upload_image_to_gcs,
          send_to_spring_backend]
      | httpError s d =>
        simp [generate_image_post, hg, hw, hnone, hgcs, hs, upload_image_to_gcs,
          send_to_spring_backend]

/-- Witness for C7: a concrete header-less request logs the warning in
front of the generation logs and otherwise proceeds. -/
theorem C7_missing_auth_only_warns_witness :
    (generate_image_post ⟨"key", "http://spring"⟩ ⟨"t", "c"⟩ none
        ⟨fun _ => .ok goodResp, "u1", .ok, .response 200 "ok" (.ok "{}")⟩ []).logs =
      .noAuthWarning ::
        (generate_gemini_image "t" "c" fun _ => .ok goodResp).snd :=
  (C7_missing_auth_only_warns ⟨"key", "http://spring"⟩ ⟨"t", "c"⟩
      ⟨fun _ => .ok goodResp, "u1", .ok, .response 200 "ok" (.ok "{}")⟩ [] "Bearer abc"
      (by decide)).2.2.2.1

/-- C8: a request whose generation and upload both succeed performs
exactly one upload, under the fresh filename `<uuid>.png`, adding exactly
one object to storage and leaving every previous object in place; and
distinct uuids always give distinct filenames, so a fresh uuid never
reuses or overwrites an earlier name. -/
theorem C8_single_upload_fresh_filename (cfg : AppConfig) (req : PostRequest)
    (auth : Option String) (o : RequestOracles) (gcs0 : GcsState)
    (hgen : pyTruthyBytes (generate_gemini_image req.title req.content o.gemini).fst = true)
    (hgcs : o.gcs = .ok) :
    (generate_image_post cfg req auth o gcs0).uploadCalls =
      [{ bytes := (generate_gemini_image req.title req.content o.gemini).fst.getD []
         filename := o.uuid ++ ".png" }] ∧
    (generate_image_post cfg req auth o gcs0).gcsFinal =
      ((BUCKET_NAME, IMAGE_DIR ++ "/" ++ (o.uuid ++ ".png")),
        { data := (generate_gemini_image req.title req.content o.gemini).fst.getD []
          contentType := "image/png"
          publicAccess := false }) :: gcs0 ∧
    (∀ u1 u2 : String, u1 ≠ u2 → u1 ++ ".png" ≠ u2 ++ ".png") := by
  refine ⟨?_, ?_, ?_⟩
  · cases hs : springResultOf o.spring with
    | ok body =>
      simp [generate_image_post, hgen, hgcs, hs, upload_image_to_gcs, send_to_spring_backend]
    | httpError s d =>
      simp [generate_image_post, hgen, hgcs, hs, upload_image_to_gcs, send_to_spring_backend]
  · cases hs : springResultOf o.spring with
    | ok body =>
      simp [generate_image_post, hgen, hgcs, hs, upload_image_to_gcs, send_to_spring_backend]
    | httpError s d =>
      simp [generate_image_post, hgen, hgcs, hs, upload_image_to_gcs, send_to_spring_backend]
  · intro u1 u2 hne h
    apply hne
    apply String.ext
    have hd := congrArg String.data h
    rw [String.data_append, String.data_append] at hd
    exact List.append_cancel_right hd

/-- Witness for C8: a concrete successful request uploads exactly the
generated bytes once, under `u1.png`. -/
theorem C8_single_upload_fresh_filename_witness :
    (generate_image_post ⟨"key", "http://spring"⟩ ⟨"t", "c"⟩ (some "Bearer x")
        ⟨fun _ => .ok goodResp, "u1", .ok, .response 200 "ok" (.ok "{}")⟩ []).uploadCalls =
      [{ bytes := [137, 80], filename := "u1" ++ ".png" }] :=
  (C8_single_upload_fresh_filename ⟨"key", "http://spring"⟩ ⟨"t", "c"⟩ (some "Bearer x")
      ⟨fun _ => .ok goodResp, "u1", .ok, .response 200 "ok" (.ok "{}")⟩ [] rfl rfl).1

/-! ## Characterization of the candidate scan (for C4) -/

/-- Spec-side definition, following the claim's words: the inline data of
the first part, in candidate order then part order, whose `inline_data` is
non-null — i.e. the first match over the flattened part sequence. -/
def specFirstInlineData (resp : GeminiResponse) : Option (Option (List Nat)) :=
  firstInlineOfParts (resp.candidates.map fun c => c.content.parts).flatten

/-- The per-candidate first inline datum: for each candidate that has a
part with non-null inline data, that first part's `data` field. -/
def perCandidateFirstInline (cs : List Candidate) : List (Option (List Nat)) :=
  cs.filterMap fun c => firstInlineOfParts c.content.parts

/-- The last element of a list, or the default when the list is empty. -/
def lastOrD (l : List (Option (List Nat))) (acc : Option (List Nat)) : Option (List Nat) :=
  match l with
  | [] => acc
  | x :: xs => lastOrD xs x

/-- What the nested loops of lines 70-77 actually compute, starting from a
falsy accumulator: the first per-candidate first inline datum that is
non-null and non-empty, and otherwise the last per-candidate first inline
datum seen (the accumulator when there is none). -/
theorem scanCandidates_eq_spec (cs : List Candidate) (acc : Option (List Nat))
    (hacc : pyTruthyBytes acc = false) :
    scanCandidates cs acc =
      (match (perCandidateFirstInline cs).find? pyTruthyBytes with
       | some d => d
       | none => lastOrD (perCandidateFirstInline cs) acc) := by
  induction cs generalizing acc with
  | nil => simp [scanCandidates, perCandidateFirstInline, lastOrD]
  | cons c rest ih =>
    cases hf : firstInlineOfParts c.content.parts with
    | none =>
      have hcs : perCandidateFirstInline (c :: rest) = perCandidateFirstInline rest := by
        simp [perCandidateFirstInline, List.filterMap_cons, hf]
      rw [hcs]
      simp only [scanCandidates, hf, hacc, Bool.false_eq_true, if_false]
      exact ih acc hacc
    | some d =>
      have hcs : perCandidateFirstInline (c :: rest) = d :: perCandidateFirstInline rest := by
        simp [perCandidateFirstInline, List.filterMap_cons, hf]
      rw [hcs]
      simp only [scanCandidates, hf]
      cases hd : pyTruthyBytes d with
      | true =>
        simp [List.find?, hd]
      | false =>
        simp only [hd, Bool.false_eq_true, if_false, List.find?, lastOrD]
        exact ih d hd

/-- A concrete Gemini response whose first candidate's inline part carries
empty bytes while the second candidate's inline part carries `[1]`. -/
def respC4 : GeminiResponse :=
  { candidates :=
      [{ content := { parts := [{ inline_data := some { data := some [] } }] } },
       { content := { parts := [{ inline_data := some { data := some [1] } }] } }] }

/-- C4 fails as stated: on `respC4` the first part carrying non-null
inline data (candidate order, then part order) holds the empty byte
string, but because `if image_bytes: break ` tests truthiness, the outer
loop does not stop there and the operation returns the second candidate's
bytes `[1]` instead. -/
theorem C4_counterexample :
    specFirstInlineData respC4 = some (some []) ∧
    (generate_gemini_image "t" "c" fun _ => .ok respC4).fst = some [1] ∧
    some [1] ≠ (some ([] : List Nat)) :=
  ⟨rfl, rfl, by decide⟩

/-- C4 amended: within each candidate the scan takes the first part with
non-null inline data; the operation returns the first such per-candidate
datum that is non-null and non-empty, short-circuiting the remaining
candidates; when no candidate yields non-empty bytes it returns the last
per-candidate datum seen (possibly null or empty), and null when no part
carries inline data at all. -/
theorem C4_amended_first_nonempty_short_circuits (title content : String)
    (oracle : GeminiCall → GeminiOutcome) (resp : GeminiResponse)
    (h : oracle (geminiCallOf title content) = .ok resp) :
    (generate_gemini_image title content oracle).fst =
      (match (perCandidateFirstInline resp.candidates).find? pyTruthyBytes with
       | some d => d
       | none => lastOrD (perCandidateFirstInline resp.candidates) none) := by
  simp only [generate_gemini_image, h]
  exact scanCandidates_eq_spec resp.candidates none rfl

/-- Witness for the amended C4: on `respC4` the first truthy per-candidate
datum is `[1]`, and that is what the operation returns. -/
theorem C4_amended_first_nonempty_short_circuits_witness :
    (generate_gemini_image "t" "c" fun _ => .ok respC4).fst =
      (match (perCandidateFirstInline respC4.candidates).find? pyTruthyBytes with
       | some d => d
       | none => lastOrD (perCandidateFirstInline respC4.candidates) none) :=
  C4_amended_first_nonempty_short_circuits "t" "c" (fun _ => .ok respC4) respC4 rfl

/-! ## The upload contract (C6) -/

/-- C6 amended: a successful upload performs exactly one write, to the
fixed bucket at key `ai-images/<filename>` with content type `image/png`,
prepending exactly one object to the store and returning that object's
public URL; a storage error propagates unchanged to the caller (surfacing
from the endpoint as an unhandled fault) with the store untouched and no
second attempt. -/
theorem C6_upload_contract (image_bytes : List Nat) (filename : String) (st : GcsState) :
    upload_image_to_gcs image_bytes filename st .ok =
      .ok (gcsPublicUrl BUCKET_NAME (IMAGE_DIR ++ "/" ++ filename),
        ((BUCKET_NAME, IMAGE_DIR ++ "/" ++ filename),
          { data := image_bytes, contentType := "image/png", publicAccess := false }) :: st) ∧
    (∀ m, upload_image_to_gcs image_bytes filename st (.err m) = .error m) ∧
    (∀ cfg req auth o gcs0 m, o.gcs = .err m →
      pyTruthyBytes (generate_gemini_image req.title req.content o.gemini).fst = true →
      (generate_image_post cfg req auth o gcs0).response = .unhandled m ∧
      (generate_image_post cfg req auth o gcs0).gcsFinal = gcs0 ∧
      (generate_image_post cfg req auth o gcs0).springRequests = [] ∧
      (generate_image_post cfg req auth o gcs0).uploadCalls.length = 1) := by
  refine ⟨rfl, fun m => rfl, ?_⟩
  intro cfg req auth o gcs0 m hm hgen
  unfold generate_image_post
  simp [hgen, hm, upload_image_to_gcs]

/-- Witness for C6: a concrete failing upload surfaces as an unhandled
fault from the endpoint. -/
theorem C6_upload_contract_witness :
    (generate_image_post ⟨"key", "http://spring"⟩ ⟨"t", "c"⟩ none
        ⟨fun _ => .ok goodResp, "u1", .err "io failure", .requestError "x"⟩ []).response =
      .unhandled "io failure" :=
  ((C6_upload_contract [137, 80] "u1.png" []).2.2 ⟨"key", "http://spring"⟩ ⟨"t", "c"⟩ none
      ⟨fun _ => .ok goodResp, "u1", .err "io failure", .requestError "x"⟩ [] "io failure"
      rfl rfl).1

/-- C6 fails as stated on the public-readability conjunct: the code never
touches the object's ACL (`blob.public_url` only formats a URL, and
`make_public` is never called), so the freshly written object is not
recorded as publicly readable. -/
theorem C6_counterexample :
    ¬ (∀ (image_bytes : List Nat) (filename : String) (st : GcsState)
        (r : String × GcsState),
        upload_image_to_gcs image_bytes filename st .ok = .ok r →
        ∀ e ∈ r.snd, e.snd.publicAccess = true) := by
  intro h
  have hmem := h [7] "f.png" []
    (gcsPublicUrl BUCKET_NAME (IMAGE_DIR ++ "/" ++ "f.png"),
      [((BUCKET_NAME, IMAGE_DIR ++ "/" ++ "f.png"),
        { data := [7], contentType := "image/png", publicAccess := false })]) rfl
  have hfalse := hmem ((BUCKET_NAME, IMAGE_DIR ++ "/" ++ "f.png"),
      { data := [7], contentType := "image/png", publicAccess := false }) (by simp)
  simp at hfalse

end ImageRelay
